import Mathlib

/-!
A verification development for the run engine in
`src/prefect/new_flow_engine.py` of this repository.

The engine file is embedded shallowly: every operation of `FlowRunEngine`
and the two driver functions (`run_flow`, `run_flow_sync`) are translated
into executable Lean functions over an explicit `World` that records the
interactions with the orchestration collaborator (the Prefect API client),
the ambient `FlowRunContext` stack, and the number of invocations of the
user-supplied callable.  Python exceptions are modelled with `Except`:
every effectful operation returns its `Except` result together with the
engine value and the world after the operation, so that partial effects of
a raising operation remain observable.

Types that the engine imports from parts of the repository not present
under `src/` (the `State` schema, `FlowRun` and `TaskRun` client schemas,
`FlowRunContext`, the state constructors, `exception_to_failed_state`,
`propose_state`, result retrieval) are modelled from the spec; each such
definition carries a doc comment saying so.
-/

namespace Prefect

/-- Modelled from the spec: the model of Python exception values the engine
can observe (`prefect.exceptions` and builtin exception classes are outside
src/).  `typeErr` stands for `TypeError` (the class caught by
`create_flow_run` around custom-name resolution), `runtimeErr` for
`RuntimeError`, `attributeErr` for `AttributeError` on `None`, `wrapped`
for an error raised by result resolution that wraps the original error,
and `userExc`, `valueErr`, `validationErr` for arbitrary user-level
errors. -/
inductive PyExc : Type
  | typeErr : PyExc
  | attributeErr : PyExc
  | runtimeErr : String → PyExc
  | valueErr : Nat → PyExc
  | validationErr : Nat → PyExc
  | userExc : Nat → PyExc
  | wrapped : PyExc → PyExc
deriving DecidableEq, Repr

/-- Modelled from the spec: the state-type enumeration of the State data
model (section 3 of the spec: PENDING, RUNNING, COMPLETED, FAILED,
CRASHED, RETRYING); the schema class itself lives outside src/. -/
inductive StateType : Type
  | PENDING | RUNNING | COMPLETED | FAILED | CRASHED | RETRYING
deriving DecidableEq, BEq, Repr

/-- Parameter and result values passed to and returned from user work. -/
inductive Val : Type
  | vnat : Nat → Val
  | vstr : String → Val
deriving DecidableEq, Repr

/-- A parameter set: a mapping from names to values. -/
abbrev Params := List (String × Val)

/-- Modelled from the spec: the optional payload of a State is either a
result value or a serialized representation of an error. -/
inductive StateData : Type
  | resultData : Val → StateData
  | errorData : PyExc → StateData
deriving DecidableEq, Repr

/-- Modelled from the spec: the State data model — an immutable record of a
run lifecycle stage carrying a type, a name and an optional payload (the
schema class lives outside src/). -/
structure State : Type where
  type : StateType
  name : String
  data : Option StateData
deriving DecidableEq, Repr

/-- Modelled from the spec: the `Pending()` state constructor. -/
def Pending : State := { type := StateType.PENDING, name := "Pending", data := none }

/-- Modelled from the spec: the `Running()` state constructor. -/
def Running : State := { type := StateType.RUNNING, name := "Running", data := none }

/-- Modelled from the spec: the `Completed()` state constructor.  In the
engine under src/ `handle_success` proposes `Completed()` with no payload
attached. -/
def Completed : State := { type := StateType.COMPLETED, name := "Completed", data := none }

/-- Modelled from the spec: `State.is_running` (schema method outside
src/).  Section 4.2 of the spec requires that a RETRYING acceptance
re-enters the RUNNING branch of the driver loop, so a RETRYING state
counts as running. -/
def State.is_running (s : State) : Bool :=
  match s.type with
  | StateType.RUNNING => true
  | StateType.RETRYING => true
  | _ => false

/-- Modelled from the spec: `State.is_pending` (schema method outside
src/). -/
def State.is_pending (s : State) : Bool :=
  match s.type with
  | StateType.PENDING => true
  | _ => false

/-- Modelled from the spec: result resolution over a state (the result
retrieval of `prefect.states` is outside src/).  A stored result payload is
returned as a value; a stored error payload with `raise_on_failure` raises
an error wrapping the original; otherwise no value is produced. -/
def State.resultOf (s : State) (raise_on_failure : Bool) : Except PyExc (Option Val) :=
  match s.data with
  | some (StateData.errorData exc) =>
      if raise_on_failure then Except.error (PyExc.wrapped exc) else Except.ok none
  | some (StateData.resultData v) => Except.ok (some v)
  | none => Except.ok none

/-- Modelled from the spec: `exception_to_failed_state` (from
`prefect.states`, outside src/) maps an arbitrary raised error into a
FAILED state carrying a serialized representation of the error. -/
def exception_to_failed_state (exc : PyExc) : State :=
  { type := StateType.FAILED, name := "Failed", data := some (StateData.errorData exc) }

/-- Modelled from the spec: the Run Record (`FlowRun` client schema,
outside src/): durable identity, parameters, current state (mirrored in
the `state_name` and `state_type` fields the engine overwrites), and
optional parent linkage. -/
structure FlowRun : Type where
  id : Nat
  name : Option String
  parameters : Params
  state : State
  state_name : String
  state_type : StateType
  parent_task_run_id : Option Nat
deriving DecidableEq, Repr

/-- Modelled from the spec: the child work-unit record (`TaskRun` client
schema, outside src/) registered for a nested run. -/
structure TaskRun : Type where
  id : Nat
  name : String
  flow_run_id : Option Nat
  state : State
deriving DecidableEq, Repr

/-- Modelled from the spec: the Execution Context (`FlowRunContext`,
outside src/): the currently active run record and the resolved
parameters (the logger, result policy and background task group carry no
observable data in this model). -/
structure FlowRunContext : Type where
  flow_run : Option FlowRun
  parameters : Params
deriving DecidableEq, Repr

/-- The work definition (the "flow").  The class itself lives outside
src/; the fields model exactly the surface the engine file uses: a name
and version, the validation flag and validator, the output-capture flag,
the callable (indexed by the number of prior invocations, since a Python
callable may behave differently across calls), the outcome of
custom-name resolution for given parameters (`_resolve_custom_flow_run_name`
is outside src/), and parameter serialization. -/
structure Flow : Type where
  name : String
  version : Option String
  should_validate_parameters : Bool
  validate_parameters : Params → Except PyExc Params
  log_prints : Bool
  fn : Nat → Params → Except PyExc Val
  run_name_outcome : Params → Except PyExc (Option String)
  serialize_parameters : Params → Params

/-- One observable interaction with the orchestration collaborator or a
resource-lifecycle event of the engine scope. -/
inductive OrchEvent : Type
  | createTaskRun : Nat → Option Nat → OrchEvent
  | createFlowRun : Nat → Option Nat → OrchEvent
  | proposeState : Nat → State → State → OrchEvent
  | clientOpen : OrchEvent
  | clientClose : OrchEvent
  | ctxEnter : OrchEvent
  | ctxExit : OrchEvent
deriving DecidableEq, Repr

/-- Modelled from the spec: the orchestration collaborator's acceptance
behaviour — given the index of the proposal (how many proposals this
collaborator has already answered) and the proposed state, return the
accepted state, which is authoritative and may differ from the
proposal. -/
structure Orchestrator : Type where
  accept : Nat → State → State

/-- The world threaded through every effectful operation: the collaborator
behaviour, the event log, the ambient context stack, the count of user
callable invocations, the next collaborator-assigned ids and a clock
advanced by the fixed backoff sleeps. -/
structure World : Type where
  orch : Orchestrator
  log : List OrchEvent
  ctxStack : List FlowRunContext
  fnCalls : Nat
  nextTaskRunId : Nat
  nextFlowRunId : Nat
  clock : Nat

/-- Count the events of the log satisfying a predicate. -/
def countEv (p : OrchEvent → Bool) : List OrchEvent → Nat
  | [] => 0
  | ev :: rest => (if p ev then 1 else 0) + countEv p rest

/-- Recognizer for proposal events. -/
def isProposeEvent : OrchEvent → Bool
  | OrchEvent.proposeState _ _ _ => true
  | _ => false

/-- Recognizer for client-release events. -/
def isClientClose : OrchEvent → Bool
  | OrchEvent.clientClose => true
  | _ => false

/-- Recognizer for context-release events. -/
def isCtxExit : OrchEvent → Bool
  | OrchEvent.ctxExit => true
  | _ => false

/-- Number of proposals the collaborator has answered so far. -/
def proposeCalls (w : World) : Nat := countEv isProposeEvent w.log

/-- Number of client-connection releases so far. -/
def clientCloseCount (w : World) : Nat := countEv isClientClose w.log

/-- Number of Execution Context releases so far. -/
def ctxExitCount (w : World) : Nat := countEv isCtxExit w.log

/-- Modelled from the spec: `propose_state(run_id, proposed) -> accepted`
(from `prefect.utilities.engine`, outside src/) — the sole mutation
primitive of the collaborator: record the round trip and return the
accepted state chosen by the collaborator. -/
def propose_state (w : World) (run_id : Nat) (s : State) : State × World :=
  let acc := w.orch.accept (proposeCalls w) s
  (acc, { w with log := w.log ++ [OrchEvent.proposeState run_id s acc] })

/-- The engine dataclass of `new_flow_engine.py` (fields in source
order; `__post_init__` replaces absent parameters with the empty mapping,
so `parameters` is total here). -/
structure FlowRunEngine : Type where
  flow : Flow
  parameters : Params
  flow_run : Option FlowRun
  _is_started : Bool
  _client : Option Unit
  short_circuit : Bool

/-- The `client` property: raises `RuntimeError` unless the engine is
started and holds a client. -/
def FlowRunEngine.client (e : FlowRunEngine) : Except PyExc Unit :=
  if !e._is_started || e._client.isNone then
    Except.error (PyExc.runtimeErr "Engine has not started.")
  else Except.ok ()

/-- The `state` property: `self.flow_run.state` (an `AttributeError` on a
missing run record). -/
def FlowRunEngine.state (e : FlowRunEngine) : Except PyExc State :=
  match e.flow_run with
  | some fr => Except.ok fr.state
  | none => Except.error PyExc.attributeErr

/-- `set_state`: if short-circuited, return the current state unchanged;
otherwise access the client (raising if the engine is not started), send
the proposal to the collaborator, overwrite the run record's `state`,
`state_name` and `state_type` fields with the accepted state and return
it (`set_subflow_state` is a no-op in the source). -/
def FlowRunEngine.set_state (e : FlowRunEngine) (w : World) (s : State) :
    Except PyExc State × FlowRunEngine × World :=
  if e.short_circuit then
    match FlowRunEngine.state e with
    | Except.ok st => (Except.ok st, e, w)
    | Except.error pe => (Except.error pe, e, w)
  else
    match FlowRunEngine.client e with
    | Except.error pe => (Except.error pe, e, w)
    | Except.ok _ =>
      match e.flow_run with
      | none => (Except.error PyExc.attributeErr, e, w)
      | some fr =>
        let res := propose_state w fr.id s
        let acc := res.1
        let fr' := { fr with state := acc, state_name := acc.name, state_type := acc.type }
        (Except.ok acc, { e with flow_run := some fr' }, res.2)

/-- `begin_run`: propose a RUNNING state via `set_state`. -/
def FlowRunEngine.begin_run (e : FlowRunEngine) (w : World) :
    Except PyExc State × FlowRunEngine × World :=
  FlowRunEngine.set_state e w Running

/-- `handle_success`: propose COMPLETED, then return the raw result. -/
def FlowRunEngine.handle_success (e : FlowRunEngine) (w : World) (v : Val) :
    Except PyExc Val × FlowRunEngine × World :=
  match FlowRunEngine.set_state e w Completed with
  | (Except.ok _, e', w') => (Except.ok v, e', w')
  | (Except.error pe, e', w') => (Except.error pe, e', w')

/-- `handle_exception`: map the raised error into a FAILED state and
propose it via `set_state`. -/
def FlowRunEngine.handle_exception (e : FlowRunEngine) (w : World) (exc : PyExc) :
    Except PyExc State × FlowRunEngine × World :=
  FlowRunEngine.set_state e w (exception_to_failed_state exc)

/-- `result`: resolve the run record's current state into a result,
raising on failure when asked to. -/
def FlowRunEngine.result (e : FlowRunEngine) (raise_on_failure : Bool) :
    Except PyExc (Option Val) :=
  match FlowRunEngine.state e with
  | Except.error pe => Except.error pe
  | Except.ok st => State.resultOf st raise_on_failure

/-- `is_running`: false with no run record, else the record state's
predicate. -/
def FlowRunEngine.is_running (e : FlowRunEngine) : Bool :=
  match e.flow_run with
  | none => false
  | some fr => State.is_running fr.state

/-- `is_pending`: false with no run record, else the record state's
predicate. -/
def FlowRunEngine.is_pending (e : FlowRunEngine) : Bool :=
  match e.flow_run with
  | none => false
  | some fr => State.is_pending fr.state

/-- `create_subflow_task_run`: register a child work-unit record with the
collaborator under the enclosing run's id (a dummy task from the flow's
name, callable and version, in Pending state; the server assigns the
id). -/
def FlowRunEngine.create_subflow_task_run (e : FlowRunEngine) (w : World)
    (ctx : FlowRunContext) : TaskRun × World :=
  let tid := w.nextTaskRunId
  let frid := ctx.flow_run.map fun r => r.id
  let tr : TaskRun := { id := tid, name := e.flow.name, flow_run_id := frid, state := Pending }
  (tr, { w with nextTaskRunId := tid + 1,
                log := w.log ++ [OrchEvent.createTaskRun tid frid] })

/-- `create_flow_run`: if an Execution Context is active, first register a
child work-unit record; then resolve the custom run name, swallowing
exactly `TypeError` by falling back to no name; then request a new run
record from the collaborator in Pending state with parent linkage to the
child record when one was created. -/
def FlowRunEngine.create_flow_run (e : FlowRunEngine) (w : World) :
    Except PyExc FlowRun × World :=
  let flow_run_ctx := w.ctxStack.head?
  let step1 : Option TaskRun × World :=
    match flow_run_ctx with
    | some ctx =>
      let res := FlowRunEngine.create_subflow_task_run e w ctx
      (some res.1, res.2)
    | none => (none, w)
  let parent_task_run := step1.1
  let w1 := step1.2
  let nameRes : Except PyExc (Option String) :=
    match e.flow.run_name_outcome e.parameters with
    | Except.ok n => Except.ok n
    | Except.error pe =>
      if pe = PyExc.typeErr then Except.ok none else Except.error pe
  match nameRes with
  | Except.error pe => (Except.error pe, w1)
  | Except.ok flow_run_name =>
    let rid := w1.nextFlowRunId
    let ptid := parent_task_run.map fun t => t.id
    let fr : FlowRun :=
      { id := rid, name := flow_run_name,
        parameters := e.flow.serialize_parameters e.parameters,
        state := Pending, state_name := Pending.name,
        state_type := Pending.type, parent_task_run_id := ptid }
    (Except.ok fr, { w1 with nextFlowRunId := rid + 1,
                             log := w1.log ++ [OrchEvent.createFlowRun rid ptid] })

/-- The code shared by the interior of `start` and `start_sync` (source
lines 171-196 and 213-247 coincide in every model-observable step): create
the run record when none was supplied; validate parameters when the flow
asks for it, converting a validation failure into a FAILED transition via
`handle_exception` followed by setting the short-circuit flag; then enter
the Execution Context, run the body, and leave the context (the `with`
statement pops the context even when the body raises). -/
def FlowRunEngine.startInner {A : Type} (e0 : FlowRunEngine) (w0 : World)
    (body : FlowRunEngine → World → Except PyExc A × FlowRunEngine × World) :
    Except PyExc A × FlowRunEngine × World :=
  let step1 : Except PyExc Unit × FlowRunEngine × World :=
    match e0.flow_run with
    | some _ => (Except.ok (), e0, w0)
    | none =>
      match FlowRunEngine.create_flow_run e0 w0 with
      | (Except.ok fr, w') => (Except.ok (), { e0 with flow_run := some fr }, w')
      | (Except.error pe, w') => (Except.error pe, e0, w')
  match step1 with
  | (Except.error pe, e, w) => (Except.error pe, e, w)
  | (Except.ok _, e1, w1) =>
    let step2 : Except PyExc Unit × FlowRunEngine × World :=
      if e1.flow.should_validate_parameters then
        match e1.flow.validate_parameters e1.parameters with
        | Except.ok ps => (Except.ok (), { e1 with parameters := ps }, w1)
        | Except.error exc =>
          match FlowRunEngine.handle_exception e1 w1 exc with
          | (Except.ok _, e', w') => (Except.ok (), { e' with short_circuit := true }, w')
          | (Except.error pe, e', w') => (Except.error pe, e', w')
      else (Except.ok (), e1, w1)
    match step2 with
    | (Except.error pe, e, w) => (Except.error pe, e, w)
    | (Except.ok _, e2, w2) =>
      let ctx : FlowRunContext := { flow_run := e2.flow_run, parameters := e2.parameters }
      let w3 := { w2 with ctxStack := ctx :: w2.ctxStack,
                          log := w2.log ++ [OrchEvent.ctxEnter] }
      match body e2 w3 with
      | (bres, e4, w4) =>
        let w5 := { w4 with ctxStack := w4.ctxStack.tail,
                            log := w4.log ++ [OrchEvent.ctxExit] }
        (bres, e4, w5)

/-- The release steps at the exit of the cooperative `start` scope: the
`async with` closes the client connection on both outcomes; the resets of
source lines 198-199 sit after the `async with` block and run only when
no exception propagates through the generator. -/
def startExitAsync {A : Type} (r : Except PyExc A × FlowRunEngine × World) :
    Except PyExc A × FlowRunEngine × World :=
  match r with
  | (Except.error pe, e2, w2) =>
    (Except.error pe, e2, { w2 with log := w2.log ++ [OrchEvent.clientClose] })
  | (Except.ok a, e2, w2) =>
    (Except.ok a, { e2 with _is_started := false, _client := none },
     { w2 with log := w2.log ++ [OrchEvent.clientClose] })

/-- The cooperative `start` scope (an `asynccontextmanager`): open the
client connection, mark the engine started, run the interior, then apply
the exit steps. -/
def FlowRunEngine.start {A : Type} (e0 : FlowRunEngine) (w0 : World)
    (body : FlowRunEngine → World → Except PyExc A × FlowRunEngine × World) :
    Except PyExc A × FlowRunEngine × World :=
  startExitAsync (FlowRunEngine.startInner
    { e0 with _client := some (), _is_started := true }
    { w0 with log := w0.log ++ [OrchEvent.clientOpen] } body)

/-- The interior of the blocking `start_sync` scope (source lines
213-247, duplicated rather than shared so that the refinement claim
compares two independently translated definitions): the same observable
steps as the cooperative interior — create the run record when absent,
validate parameters with the short-circuit conversion on failure, and
bracket the body with the Execution Context. -/
def FlowRunEngine.startInnerSync {A : Type} (e0 : FlowRunEngine) (w0 : World)
    (body : FlowRunEngine → World → Except PyExc A × FlowRunEngine × World) :
    Except PyExc A × FlowRunEngine × World :=
  let step1 : Except PyExc Unit × FlowRunEngine × World :=
    match e0.flow_run with
    | some _ => (Except.ok (), e0, w0)
    | none =>
      match FlowRunEngine.create_flow_run e0 w0 with
      | (Except.ok fr, w') => (Except.ok (), { e0 with flow_run := some fr }, w')
      | (Except.error pe, w') => (Except.error pe, e0, w')
  match step1 with
  | (Except.error pe, e, w) => (Except.error pe, e, w)
  | (Except.ok _, e1, w1) =>
    let step2 : Except PyExc Unit × FlowRunEngine × World :=
      if e1.flow.should_validate_parameters then
        match e1.flow.validate_parameters e1.parameters with
        | Except.ok ps => (Except.ok (), { e1 with parameters := ps }, w1)
        | Except.error exc =>
          match FlowRunEngine.handle_exception e1 w1 exc with
          | (Except.ok _, e', w') => (Except.ok (), { e' with short_circuit := true }, w')
          | (Except.error pe, e', w') => (Except.error pe, e', w')
      else (Except.ok (), e1, w1)
    match step2 with
    | (Except.error pe, e, w) => (Except.error pe, e, w)
    | (Except.ok _, e2, w2) =>
      let ctx : FlowRunContext := { flow_run := e2.flow_run, parameters := e2.parameters }
      let w3 := { w2 with ctxStack := ctx :: w2.ctxStack,
                          log := w2.log ++ [OrchEvent.ctxEnter] }
      match body e2 w3 with
      | (bres, e4, w4) =>
        let w5 := { w4 with ctxStack := w4.ctxStack.tail,
                            log := w4.log ++ [OrchEvent.ctxExit] }
        (bres, e4, w5)

/-- The release steps at the exit of the blocking `start_sync` scope: on
the normal path the `else` clause releases the client; on the exception
path the release call is commented out in the source, so no
client-release event is recorded; the `finally` clause resets
`_is_started` and `_client` on both paths. -/
def startExitSync {A : Type} (r : Except PyExc A × FlowRunEngine × World) :
    Except PyExc A × FlowRunEngine × World :=
  match r with
  | (Except.error pe, e2, w2) =>
    (Except.error pe, { e2 with _is_started := false, _client := none }, w2)
  | (Except.ok a, e2, w2) =>
    (Except.ok a, { e2 with _is_started := false, _client := none },
     { w2 with log := w2.log ++ [OrchEvent.clientClose] })

/-- The blocking `start_sync` scope: enter the client, mark the engine
started, run the interior, then apply the exit steps. -/
def FlowRunEngine.start_sync {A : Type} (e0 : FlowRunEngine) (w0 : World)
    (body : FlowRunEngine → World → Except PyExc A × FlowRunEngine × World) :
    Except PyExc A × FlowRunEngine × World :=
  startExitSync (FlowRunEngine.startInnerSync
    { e0 with _client := some (), _is_started := true }
    { w0 with log := w0.log ++ [OrchEvent.clientOpen] } body)

/-- The driver's Pending poll loop (`while run.is_pending(): sleep(1);
begin_run()`), bounded by fuel; `none` in the first component means the
fuel ran out with the run still pending. -/
def pendingLoop (fuel : Nat) (e : FlowRunEngine) (w : World) :
    Option (Except PyExc Unit) × FlowRunEngine × World :=
  if FlowRunEngine.is_pending e then
    match fuel with
    | 0 => (none, e, w)
    | Nat.succ fuel' =>
      let w1 := { w with clock := w.clock + 1 }
      match FlowRunEngine.begin_run e w1 with
      | (Except.ok _, e2, w2) => pendingLoop fuel' e2 w2
      | (Except.error pe, e2, w2) => (some (Except.error pe), e2, w2)
  else (some (Except.ok ()), e, w)

/-- The `return_type` argument of the drivers. -/
inductive ReturnType : Type
  | state | result
deriving DecidableEq, Repr

/-- The driver's Running loop: invoke the work's callable; on normal
return finalize via `handle_success` and — when the caller asked for the
result — return it immediately; on a raised error (from the callable or
from `handle_success`, both inside the `try`) recover via
`handle_exception` and re-check the loop condition.  `some v` in a
successful first component is the early result return; `none` inside
`Except.ok` means the loop exited by its condition. -/
def runningLoop (fuel : Nat) (rt : ReturnType) (e : FlowRunEngine) (w : World) :
    Option (Except PyExc (Option Val)) × FlowRunEngine × World :=
  if FlowRunEngine.is_running e then
    match fuel with
    | 0 => (none, e, w)
    | Nat.succ fuel' =>
      let r := e.flow.fn w.fnCalls e.parameters
      let w1 := { w with fnCalls := w.fnCalls + 1 }
      match r with
      | Except.ok v =>
        match FlowRunEngine.handle_success e w1 v with
        | (Except.ok _, e2, w2) =>
          if rt = ReturnType.result then (some (Except.ok (some v)), e2, w2)
          else runningLoop fuel' rt e2 w2
        | (Except.error exc2, e2, w2) =>
          match FlowRunEngine.handle_exception e2 w2 exc2 with
          | (Except.ok _, e3, w3) => runningLoop fuel' rt e3 w3
          | (Except.error pe, e3, w3) => (some (Except.error pe), e3, w3)
      | Except.error exc =>
        match FlowRunEngine.handle_exception e w1 exc with
        | (Except.ok _, e2, w2) => runningLoop fuel' rt e2 w2
        | (Except.error pe, e2, w2) => (some (Except.error pe), e2, w2)
  else (some (Except.ok none), e, w)

/-- One driven run: the possible outcomes handed back to the caller. -/
inductive RunOutcome : Type
  | result : Option Val → RunOutcome
  | state : State → RunOutcome
deriving DecidableEq, Repr

/-- The body the cooperative driver runs inside the engine scope:
`begin_run`, the Pending poll loop, the Running loop, then either the
final state or result resolution, exactly as in `run_flow`.  An
`Except.ok none` outcome marks fuel exhaustion of one of the loops. -/
def runBody (fuel : Nat) (rt : ReturnType) (run : FlowRunEngine) (w : World) :
    Except PyExc (Option RunOutcome) × FlowRunEngine × World :=
  match FlowRunEngine.begin_run run w with
  | (Except.error pe, e1, w1) => (Except.error pe, e1, w1)
  | (Except.ok _, e1, w1) =>
    match pendingLoop fuel e1 w1 with
    | (none, e2, w2) => (Except.ok none, e2, w2)
    | (some (Except.error pe), e2, w2) => (Except.error pe, e2, w2)
    | (some (Except.ok _), e2, w2) =>
      match runningLoop fuel rt e2 w2 with
      | (none, e3, w3) => (Except.ok none, e3, w3)
      | (some (Except.error pe), e3, w3) => (Except.error pe, e3, w3)
      | (some (Except.ok (some v)), e3, w3) =>
        (Except.ok (some (RunOutcome.result (some v))), e3, w3)
      | (some (Except.ok none), e3, w3) =>
        if rt = ReturnType.state then
          match FlowRunEngine.state e3 with
          | Except.ok st => (Except.ok (some (RunOutcome.state st)), e3, w3)
          | Except.error pe => (Except.error pe, e3, w3)
        else
          match FlowRunEngine.result e3 true with
          | Except.ok v => (Except.ok (some (RunOutcome.result v)), e3, w3)
          | Except.error pe => (Except.error pe, e3, w3)

/-- `run_flow`: instantiate an engine and drive it through the cooperative
scope. -/
def run_flow (fuel : Nat) (flow : Flow) (flow_run : Option FlowRun)
    (parameters : Params) (rt : ReturnType) (w : World) :
    Except PyExc (Option RunOutcome) × FlowRunEngine × World :=
  let engine : FlowRunEngine :=
    { flow := flow, parameters := parameters, flow_run := flow_run,
      _is_started := false, _client := none, short_circuit := false }
  FlowRunEngine.start engine w (fun e w' => runBody fuel rt e w')

/-- The blocking driver's Pending poll loop (`time.sleep` instead of
`asyncio.sleep`; the same observable steps). -/
def pendingLoopSync (fuel : Nat) (e : FlowRunEngine) (w : World) :
    Option (Except PyExc Unit) × FlowRunEngine × World :=
  if FlowRunEngine.is_pending e then
    match fuel with
    | 0 => (none, e, w)
    | Nat.succ fuel' =>
      let w1 := { w with clock := w.clock + 1 }
      match FlowRunEngine.begin_run e w1 with
      | (Except.ok _, e2, w2) => pendingLoopSync fuel' e2 w2
      | (Except.error pe, e2, w2) => (some (Except.error pe), e2, w2)
  else (some (Except.ok ()), e, w)

/-- The blocking driver's Running loop (each awaited engine call bridged
through `run_sync`; the same observable steps). -/
def runningLoopSync (fuel : Nat) (rt : ReturnType) (e : FlowRunEngine) (w : World) :
    Option (Except PyExc (Option Val)) × FlowRunEngine × World :=
  if FlowRunEngine.is_running e then
    match fuel with
    | 0 => (none, e, w)
    | Nat.succ fuel' =>
      let r := e.flow.fn w.fnCalls e.parameters
      let w1 := { w with fnCalls := w.fnCalls + 1 }
      match r with
      | Except.ok v =>
        match FlowRunEngine.handle_success e w1 v with
        | (Except.ok _, e2, w2) =>
          if rt = ReturnType.result then (some (Except.ok (some v)), e2, w2)
          else runningLoopSync fuel' rt e2 w2
        | (Except.error exc2, e2, w2) =>
          match FlowRunEngine.handle_exception e2 w2 exc2 with
          | (Except.ok _, e3, w3) => runningLoopSync fuel' rt e3 w3
          | (Except.error pe, e3, w3) => (some (Except.error pe), e3, w3)
      | Except.error exc =>
        match FlowRunEngine.handle_exception e w1 exc with
        | (Except.ok _, e2, w2) => runningLoopSync fuel' rt e2 w2
        | (Except.error pe, e2, w2) => (some (Except.error pe), e2, w2)
  else (some (Except.ok none), e, w)

/-- The body the blocking driver runs inside the engine scope, exactly as
in `run_flow_sync`. -/
def runBodySync (fuel : Nat) (rt : ReturnType) (run : FlowRunEngine) (w : World) :
    Except PyExc (Option RunOutcome) × FlowRunEngine × World :=
  match FlowRunEngine.begin_run run w with
  | (Except.error pe, e1, w1) => (Except.error pe, e1, w1)
  | (Except.ok _, e1, w1) =>
    match pendingLoopSync fuel e1 w1 with
    | (none, e2, w2) => (Except.ok none, e2, w2)
    | (some (Except.error pe), e2, w2) => (Except.error pe, e2, w2)
    | (some (Except.ok _), e2, w2) =>
      match runningLoopSync fuel rt e2 w2 with
      | (none, e3, w3) => (Except.ok none, e3, w3)
      | (some (Except.error pe), e3, w3) => (Except.error pe, e3, w3)
      | (some (Except.ok (some v)), e3, w3) =>
        (Except.ok (some (RunOutcome.result (some v))), e3, w3)
      | (some (Except.ok none), e3, w3) =>
        if rt = ReturnType.state then
          match FlowRunEngine.state e3 with
          | Except.ok st => (Except.ok (some (RunOutcome.state st)), e3, w3)
          | Except.error pe => (Except.error pe, e3, w3)
        else
          match FlowRunEngine.result e3 true with
          | Except.ok v => (Except.ok (some (RunOutcome.result v)), e3, w3)
          | Except.error pe => (Except.error pe, e3, w3)

/-- `run_flow_sync`: instantiate an engine and drive it through the
blocking scope. -/
def run_flow_sync (fuel : Nat) (flow : Flow) (flow_run : Option FlowRun)
    (parameters : Params) (rt : ReturnType) (w : World) :
    Except PyExc (Option RunOutcome) × FlowRunEngine × World :=
  let engine : FlowRunEngine :=
    { flow := flow, parameters := parameters, flow_run := flow_run,
      _is_started := false, _client := none, short_circuit := false }
  FlowRunEngine.start_sync engine w (fun e w' => runBodySync fuel rt e w')

/-- A fresh world built around a collaborator behaviour. -/
def initWorld (orch : Orchestrator) : World :=
  { orch := orch, log := [], ctxStack := [], fnCalls := 0,
    nextTaskRunId := 0, nextFlowRunId := 0, clock := 0 }

/-- The observation equated by the refinement claim: the value or error
handed back to the caller and the run record's final state. -/
def runObs (r : Except PyExc (Option RunOutcome) × FlowRunEngine × World) :
    Except PyExc (Option RunOutcome) × Option State :=
  (r.1, r.2.1.flow_run.map fun fr => fr.state)

/-! Concrete fixtures used by witnesses and counterexamples. -/

/-- A collaborator that accepts every proposal as proposed. -/
def idOrch : Orchestrator := { accept := fun _ s => s }

/-- The RETRYING state a collaborator may answer with. -/
def retryingState : State := { type := StateType.RETRYING, name := "Retrying", data := none }

/-- A collaborator that coerces a proposed RUNNING into RETRYING (the
server-side concurrency-limit behaviour named by the spec) and accepts
everything else as proposed. -/
def rewritingOrch : Orchestrator :=
  { accept := fun _ s =>
      if s.type == StateType.RUNNING then retryingState else s }

/-- A plain flow: no validation, callable returning 42, no custom name. -/
def cFlow : Flow :=
  { name := "etl", version := none,
    should_validate_parameters := false,
    validate_parameters := fun ps => Except.ok ps,
    log_prints := false,
    fn := fun _ _ => Except.ok (Val.vnat 42),
    run_name_outcome := fun _ => Except.ok none,
    serialize_parameters := fun ps => ps }

/-- A pre-created run record in Pending state. -/
def frA : FlowRun :=
  { id := 7, name := none, parameters := [], state := Pending,
    state_name := "Pending", state_type := StateType.PENDING,
    parent_task_run_id := none }

/-- A started engine holding `frA`, not short-circuited. -/
def engA : FlowRunEngine :=
  { flow := cFlow, parameters := [], flow_run := some frA,
    _is_started := true, _client := some (), short_circuit := false }

/-- A short-circuited engine holding `frA`. -/
def engSC : FlowRunEngine :=
  { flow := cFlow, parameters := [], flow_run := some frA,
    _is_started := true, _client := some (), short_circuit := true }

/-- Fresh world with the rewriting collaborator. -/
def wRewrite : World := initWorld rewritingOrch

/-- The enclosing context of engine A active while engine B starts. -/
def cCtx7 : FlowRunContext := { flow_run := some frA, parameters := [] }

/-- A world in which engine A's context is active. -/
def cWorld7 : World :=
  { orch := idOrch, log := [], ctxStack := [cCtx7], fnCalls := 0,
    nextTaskRunId := 3, nextFlowRunId := 9, clock := 0 }

/-- A started engine B with no pre-supplied run record. -/
def engB : FlowRunEngine :=
  { flow := cFlow, parameters := [], flow_run := none,
    _is_started := true, _client := some (), short_circuit := false }

/-- A flow whose custom-name resolution raises a non-TypeError. -/
def badNameFlow : Flow :=
  { cFlow with run_name_outcome := fun _ => Except.error (PyExc.valueErr 5) }

/-- A flow whose custom-name resolution raises TypeError. -/
def typeErrFlow : Flow :=
  { cFlow with run_name_outcome := fun _ => Except.error PyExc.typeErr }

/-- A fresh, unstarted engine over the plain flow with no run record. -/
def engB0 : FlowRunEngine :=
  { flow := cFlow, parameters := [], flow_run := none,
    _is_started := false, _client := none, short_circuit := false }

/-- The unstarted engine over the bad-name flow. -/
def engBadName : FlowRunEngine := { engB0 with flow := badNameFlow }

/-- The started engine over the TypeError-name flow. -/
def engTypeErr : FlowRunEngine :=
  { flow := typeErrFlow, parameters := [], flow_run := none,
    _is_started := true, _client := some (), short_circuit := false }

/-- A scope body that completes normally without touching anything. -/
def cOkBody : FlowRunEngine → World → Except PyExc (Option RunOutcome) × FlowRunEngine × World :=
  fun e w => (Except.ok none, e, w)

/-- A scope body that raises a user error. -/
def cRaisingBody : FlowRunEngine → World → Except PyExc (Option RunOutcome) × FlowRunEngine × World :=
  fun e w => (Except.error (PyExc.userExc 0), e, w)

/-- A flow like the plain one but with parameter validation enabled (its
validator accepts everything). -/
def valFlow : Flow := { cFlow with should_validate_parameters := true }

/-- A flow whose callable always raises. -/
def raisingFlow : Flow :=
  { cFlow with fn := fun _ _ => Except.error (PyExc.userExc 9) }

/-- A flow declaring one integer parameter x: its validator accepts
exactly a single integer-valued binding. -/
def intOnlyFlow : Flow :=
  { cFlow with should_validate_parameters := true,
               validate_parameters := fun ps =>
                 match ps with
                 | [(n, Val.vnat k)] => Except.ok [(n, Val.vnat k)]
                 | _ => Except.error (PyExc.validationErr 1) }

/-! Helper lemmas: the driver loops exit immediately, whatever the fuel,
as soon as their condition fails. -/

theorem pendingLoop_not_pending (fuel : Nat) (e : FlowRunEngine) (w : World)
    (h : FlowRunEngine.is_pending e = false) :
    pendingLoop fuel e w = (some (Except.ok ()), e, w) := by
  cases fuel <;> simp [pendingLoop, h]

theorem runningLoop_not_running (fuel : Nat) (rt : ReturnType) (e : FlowRunEngine) (w : World)
    (h : FlowRunEngine.is_running e = false) :
    runningLoop fuel rt e w = (some (Except.ok none), e, w) := by
  cases fuel <;> simp [runningLoop, h]

/-! The claims. -/

/-- C1: for every engine whose short-circuit flag is not set and that
holds a run record (within a started scope), `set_state(proposed)` sends
the proposed state to the orchestration collaborator, overwrites the run
record's `state`, `state_name` and `state_type` fields with the accepted
state returned by the collaborator (which may differ from the proposal),
and returns that accepted state. -/
theorem set_state_sends_and_overwrites
    (e : FlowRunEngine) (w : World) (fr : FlowRun) (s : State)
    (hsc : e.short_circuit = false) (hfr : e.flow_run = some fr)
    (hst : e._is_started = true) (hcl : e._client = some ()) :
    FlowRunEngine.set_state e w s =
      (let acc := w.orch.accept (proposeCalls w) s
       (Except.ok acc,
        { e with flow_run := some { fr with state := acc, state_name := acc.name, state_type := acc.type } },
        { w with log := w.log ++ [OrchEvent.proposeState fr.id s acc] })) := by
  simp [FlowRunEngine.set_state, FlowRunEngine.client, propose_state, hsc, hfr, hst, hcl]

/-- Witness for C1 at a concrete input: the collaborator coerces the
proposed RUNNING into RETRYING, and the run record is overwritten with,
and the call returns, the accepted RETRYING state. -/
theorem set_state_sends_and_overwrites_witness :
    (FlowRunEngine.set_state engA wRewrite Running).1 = Except.ok retryingState ∧
    (FlowRunEngine.set_state engA wRewrite Running).2.1.flow_run.map
      (fun r => r.state_type) = some StateType.RETRYING := by
  have h := set_state_sends_and_overwrites engA wRewrite frA Running rfl rfl rfl rfl
  exact ⟨by rw [h]; rfl, by rw [h]; rfl⟩

/-- C5: for every engine whose short-circuit flag is set and that holds a
run record, any two successive `set_state` calls each return the run
record's current state unchanged with the engine and the world (hence the
collaborator-interaction log) untouched, so the operation is idempotent
while short-circuited. -/
theorem set_state_short_circuit_idempotent
    (e : FlowRunEngine) (w : World) (fr : FlowRun) (s1 s2 : State)
    (hsc : e.short_circuit = true) (hfr : e.flow_run = some fr) :
    FlowRunEngine.set_state e w s1 = (Except.ok fr.state, e, w) ∧
    FlowRunEngine.set_state e w s2 = (Except.ok fr.state, e, w) := by
  constructor <;> simp [FlowRunEngine.set_state, FlowRunEngine.state, hsc, hfr]

/-- Witness for C5 at a concrete input: two successive calls with
different proposals both return the unchanged Pending state and leave the
engine and world identical. -/
theorem set_state_short_circuit_idempotent_witness :
    FlowRunEngine.set_state engSC wRewrite Running = (Except.ok Pending, engSC, wRewrite) ∧
    FlowRunEngine.set_state engSC wRewrite Completed = (Except.ok Pending, engSC, wRewrite) :=
  set_state_short_circuit_idempotent engSC wRewrite frA Running Completed rfl rfl

/-- C7: for every engine with no pre-supplied run record, `create_flow_run`
with an active enclosing Execution Context first registers a child
work-unit record with the collaborator under the enclosing run's id and
only afterwards requests the run record, which carries parent linkage to
that child record; with no enclosing context no child record is created
and the parent linkage is absent. -/
theorem create_flow_run_registers_child_before_run
    (e : FlowRunEngine) (w : World) (nm : Option String)
    (hname : e.flow.run_name_outcome e.parameters = Except.ok nm) :
    (∀ ctx pr, w.ctxStack.head? = some ctx → ctx.flow_run = some pr →
      FlowRunEngine.create_flow_run e w =
        (Except.ok { id := w.nextFlowRunId, name := nm, parameters := e.flow.serialize_parameters e.parameters, state := Pending, state_name := Pending.name, state_type := Pending.type, parent_task_run_id := some w.nextTaskRunId },
         { w with nextTaskRunId := w.nextTaskRunId + 1, nextFlowRunId := w.nextFlowRunId + 1,
                  log := w.log ++ [OrchEvent.createTaskRun w.nextTaskRunId (some pr.id), OrchEvent.createFlowRun w.nextFlowRunId (some w.nextTaskRunId)] }))
  ∧ (w.ctxStack.head? = none →
      FlowRunEngine.create_flow_run e w =
        (Except.ok { id := w.nextFlowRunId, name := nm, parameters := e.flow.serialize_parameters e.parameters, state := Pending, state_name := Pending.name, state_type := Pending.type, parent_task_run_id := none },
         { w with nextFlowRunId := w.nextFlowRunId + 1, log := w.log ++ [OrchEvent.createFlowRun w.nextFlowRunId none] })) := by
  constructor
  · intro ctx pr hctx hpr
    simp [FlowRunEngine.create_flow_run, FlowRunEngine.create_subflow_task_run, hctx, hpr, hname]
  · intro hctx
    simp [FlowRunEngine.create_flow_run, hctx, hname]

/-- Witness for C7 at a concrete input: with engine A's context active,
engine B's record creation logs the child record (under run 7) before the
run record, and the run record links back to the child id 3. -/
theorem create_flow_run_registers_child_before_run_witness :
    (FlowRunEngine.create_flow_run engB cWorld7).1 =
      Except.ok { id := 9, name := none, parameters := [], state := Pending, state_name := "Pending", state_type := StateType.PENDING, parent_task_run_id := some 3 } ∧
    (FlowRunEngine.create_flow_run engB cWorld7).2.log =
      [OrchEvent.createTaskRun 3 (some 7), OrchEvent.createFlowRun 9 (some 3)] := by
  have h := (create_flow_run_registers_child_before_run engB cWorld7 none rfl).1 cCtx7 frA rfl rfl
  exact ⟨by rw [h]; rfl, by rw [h]; rfl⟩

/-- C9 counterexample: a custom-name-resolution failure that is not a
TypeError (here a ValueError) is not swallowed — it propagates out of
`create_flow_run` and out of `start()`, refuting the claim that every
such exception is swallowed. -/
theorem name_resolution_error_propagates_cex :
    (FlowRunEngine.create_flow_run { engBadName with _is_started := true, _client := some () } (initWorld idOrch)).1 = Except.error (PyExc.valueErr 5) ∧
    (FlowRunEngine.start engBadName (initWorld idOrch) cOkBody).1 = Except.error (PyExc.valueErr 5) :=
  ⟨rfl, rfl⟩

/-- C9 amended: for every engine whose custom-name resolution raises
exactly a TypeError, `create_flow_run` swallows the error and proceeds
with no custom display name. -/
theorem create_flow_run_swallows_type_error
    (e : FlowRunEngine) (w : World)
    (hname : e.flow.run_name_outcome e.parameters = Except.error PyExc.typeErr) :
    ∃ fr, (FlowRunEngine.create_flow_run e w).1 = Except.ok fr ∧ fr.name = none := by
  cases hc : w.ctxStack.head? with
  | none =>
    refine ⟨{ id := w.nextFlowRunId, name := none, parameters := e.flow.serialize_parameters e.parameters, state := Pending, state_name := Pending.name, state_type := Pending.type, parent_task_run_id := none }, ?_, rfl⟩
    simp [FlowRunEngine.create_flow_run, hc, hname]
  | some ctx =>
    refine ⟨{ id := w.nextFlowRunId, name := none, parameters := e.flow.serialize_parameters e.parameters, state := Pending, state_name := Pending.name, state_type := Pending.type, parent_task_run_id := some w.nextTaskRunId }, ?_, rfl⟩
    simp [FlowRunEngine.create_flow_run, FlowRunEngine.create_subflow_task_run, hc, hname]

/-- Witness for the amended C9 at a concrete input. -/
theorem create_flow_run_swallows_type_error_witness :
    ∃ fr, (FlowRunEngine.create_flow_run engTypeErr (initWorld idOrch)).1 = Except.ok fr ∧ fr.name = none :=
  create_flow_run_swallows_type_error engTypeErr (initWorld idOrch) rfl

/-- C6 (evaluation at the failing input): when the body of the blocking
`start_sync` scope raises, the source's client release is commented out,
so the scope exits with the exception having released the client
connection zero times (the Execution Context is still released once); the
cooperative `start` scope on the same input releases the client exactly
once. -/
theorem start_sync_exception_path_skips_client_release :
    (FlowRunEngine.start_sync engB0 (initWorld idOrch) cRaisingBody).1 = Except.error (PyExc.userExc 0) ∧
    clientCloseCount (FlowRunEngine.start_sync engB0 (initWorld idOrch) cRaisingBody).2.2 = 0 ∧
    ctxExitCount (FlowRunEngine.start_sync engB0 (initWorld idOrch) cRaisingBody).2.2 = 1 ∧
    clientCloseCount (FlowRunEngine.start engB0 (initWorld idOrch) cRaisingBody).2.2 = 1 :=
  ⟨rfl, rfl, rfl, rfl⟩

/-- C10 counterexample: after the cooperative `start` scope exits by an
exception raised in its body, `_is_started` is still true (the resets on
the source's lines 198-199 sit after the `async with` block and are
skipped), so accessing the client does not raise. -/
theorem client_access_after_start_exception_cex :
    (FlowRunEngine.start engB0 (initWorld idOrch) cRaisingBody).2.1._is_started = true ∧
    FlowRunEngine.client (FlowRunEngine.start engB0 (initWorld idOrch) cRaisingBody).2.1 = Except.ok () :=
  ⟨rfl, rfl⟩

/-- C10 amended: accessing the client before start raises a RuntimeError
stating the engine has not started; the cooperative `start` scope resets
`_is_started` and `_client` (so that client access raises again) on its
normal exit, and the blocking `start_sync` scope resets them on every
exit; only the exceptional exit of the cooperative scope leaves them
set. -/
theorem client_guard_and_reset
    (e : FlowRunEngine) (w : World)
    (body : FlowRunEngine → World → Except PyExc (Option RunOutcome) × FlowRunEngine × World) :
    (e._is_started = false →
      FlowRunEngine.client e = Except.error (PyExc.runtimeErr "Engine has not started.")) ∧
    ((FlowRunEngine.start e w body).1.isOk = true →
      ((FlowRunEngine.start e w body).2.1._is_started = false ∧
       (FlowRunEngine.start e w body).2.1._client = none ∧
       FlowRunEngine.client (FlowRunEngine.start e w body).2.1 = Except.error (PyExc.runtimeErr "Engine has not started."))) ∧
    ((FlowRunEngine.start_sync e w body).2.1._is_started = false ∧
     (FlowRunEngine.start_sync e w body).2.1._client = none ∧
     FlowRunEngine.client (FlowRunEngine.start_sync e w body).2.1 = Except.error (PyExc.runtimeErr "Engine has not started.")) := by
  refine ⟨?_, ?_, ?_⟩
  · intro h
    simp [FlowRunEngine.client, h]
  · intro hok
    unfold FlowRunEngine.start at hok ⊢
    rcases hr : FlowRunEngine.startInner { e with _client := some (), _is_started := true } { w with log := w.log ++ [OrchEvent.clientOpen] } body with ⟨res, e2, w2⟩
    cases res with
    | error pe => rw [hr] at hok; exact Bool.noConfusion hok
    | ok a => simp [startExitAsync, FlowRunEngine.client]
  · unfold FlowRunEngine.start_sync
    rcases hr : FlowRunEngine.startInnerSync { e with _client := some (), _is_started := true } { w with log := w.log ++ [OrchEvent.clientOpen] } body with ⟨res, e2, w2⟩
    cases res with
    | error pe => simp [startExitSync, FlowRunEngine.client]
    | ok a => simp [startExitSync, FlowRunEngine.client]

/-- Witness for the amended C10 at a concrete input. -/
theorem client_guard_and_reset_witness :
    FlowRunEngine.client engB0 = Except.error (PyExc.runtimeErr "Engine has not started.") ∧
    (FlowRunEngine.start engB0 (initWorld idOrch) cOkBody).2.1._is_started = false ∧
    (FlowRunEngine.start_sync engB0 (initWorld idOrch) cOkBody).2.1._client = none := by
  have h := client_guard_and_reset engB0 (initWorld idOrch) cOkBody
  exact ⟨h.1 rfl, (h.2.1 rfl).1, h.2.2.2.1⟩

/-- The two independently translated scope interiors take every
observable step identically. -/
theorem startInnerSync_eq_startInner {A : Type} (e : FlowRunEngine) (w : World)
    (body : FlowRunEngine → World → Except PyExc A × FlowRunEngine × World) :
    FlowRunEngine.startInnerSync e w body = FlowRunEngine.startInner e w body := rfl

/-- The two Pending poll loops take every observable step identically. -/
theorem pendingLoopSync_eq (fuel : Nat) : ∀ e w, pendingLoopSync fuel e w = pendingLoop fuel e w := by
  induction fuel with
  | zero => intro e w; rw [pendingLoopSync, pendingLoop]
  | succ n ih => intro e w; rw [pendingLoopSync, pendingLoop]; simp only [ih]

/-- The two Running loops take every observable step identically. -/
theorem runningLoopSync_eq (fuel : Nat) : ∀ rt e w, runningLoopSync fuel rt e w = runningLoop fuel rt e w := by
  induction fuel with
  | zero => intro rt e w; rw [runningLoopSync, runningLoop]
  | succ n ih => intro rt e w; rw [runningLoopSync, runningLoop]; simp only [ih]

/-- The two driver bodies take every observable step identically. -/
theorem runBodySync_eq (fuel : Nat) (rt : ReturnType) (run : FlowRunEngine) (w : World) :
    runBodySync fuel rt run w = runBody fuel rt run w := by
  unfold runBodySync runBody
  simp only [pendingLoopSync_eq, runningLoopSync_eq]

/-- The two scope exits agree on the caller-visible outcome and on the
run record (they differ only in the resource bookkeeping on the
exceptional path). -/
theorem startExit_obs {A : Type} (r : Except PyExc A × FlowRunEngine × World) :
    (startExitSync r).1 = (startExitAsync r).1 ∧
    (startExitSync r).2.1.flow_run = (startExitAsync r).2.1.flow_run := by
  rcases r with ⟨res, e2, w2⟩
  cases res <;> simp [startExitSync, startExitAsync]

/-- C8: for every work definition, every collaborator behaviour, every
parameter set, every return type and every loop bound, the blocking
driver `run_flow_sync` and the cooperative driver `run_flow` hand back
the identical result or error and leave the run record in the identical
final state. -/
theorem run_flow_sync_matches_run_flow (fuel : Nat) (flow : Flow)
    (fr : Option FlowRun) (ps : Params) (rt : ReturnType) (w : World) :
    runObs (run_flow_sync fuel flow fr ps rt w) = runObs (run_flow fuel flow fr ps rt w) := by
  unfold runObs run_flow_sync run_flow FlowRunEngine.start_sync FlowRunEngine.start
  simp only [startInnerSync_eq_startInner]
  simp only [funext fun e => funext fun w' => runBodySync_eq fuel rt e w']
  rw [(startExit_obs _).1, (startExit_obs _).2]

/-- C3: for every parameter set the flow's validation step accepts (or
with validation disabled), every work callable returning normally with
value v on the run's first invocation, and a collaborator that accepts
every proposal, `run_flow` with the result return type returns exactly v,
and the durable state of the run record is the collaborator-accepted
COMPLETED state. -/
theorem run_flow_returns_result_and_completes
    (orch : Orchestrator) (flow : Flow) (params params' : Params) (v : Val)
    (nm : Option String) (fuel : Nat)
    (horch : ∀ i s, orch.accept i s = s)
    (hval : (if flow.should_validate_parameters then flow.validate_parameters params else Except.ok params) = Except.ok params')
    (hname : flow.run_name_outcome params = Except.ok nm)
    (hfn : flow.fn 0 params' = Except.ok v) :
    (run_flow (fuel + 1) flow none params ReturnType.result (initWorld orch)).1 =
      Except.ok (some (RunOutcome.result (some v))) ∧
    ((run_flow (fuel + 1) flow none params ReturnType.result (initWorld orch)).2.1.flow_run.map fun fr => fr.state) = some Completed := by
  cases hsv : flow.should_validate_parameters with
  | true =>
    simp [hsv] at hval
    constructor <;>
      simp [run_flow, FlowRunEngine.start, startExitAsync, FlowRunEngine.startInner,
        FlowRunEngine.create_flow_run, FlowRunEngine.create_subflow_task_run, runBody,
        FlowRunEngine.begin_run, FlowRunEngine.set_state, FlowRunEngine.client,
        FlowRunEngine.state, propose_state, proposeCalls, countEv, isProposeEvent,
        pendingLoop, runningLoop, FlowRunEngine.handle_success, FlowRunEngine.handle_exception,
        FlowRunEngine.is_pending, FlowRunEngine.is_running, State.is_pending, State.is_running,
        Running, Completed, Pending, initWorld, hsv, hval, hname, hfn, horch]
  | false =>
    simp [hsv] at hval
    subst hval
    constructor <;>
      simp [run_flow, FlowRunEngine.start, startExitAsync, FlowRunEngine.startInner,
        FlowRunEngine.create_flow_run, FlowRunEngine.create_subflow_task_run, runBody,
        FlowRunEngine.begin_run, FlowRunEngine.set_state, FlowRunEngine.client,
        FlowRunEngine.state, propose_state, proposeCalls, countEv, isProposeEvent,
        pendingLoop, runningLoop, FlowRunEngine.handle_success, FlowRunEngine.handle_exception,
        FlowRunEngine.is_pending, FlowRunEngine.is_running, State.is_pending, State.is_running,
        Running, Completed, Pending, initWorld, hsv, hname, hfn, horch]

/-- Witness for C3 at a concrete input: the callable's value 42 is
returned and the durable state is the accepted COMPLETED state. -/
theorem run_flow_returns_result_and_completes_witness :
    (run_flow 1 valFlow none [] ReturnType.result (initWorld idOrch)).1 =
      Except.ok (some (RunOutcome.result (some (Val.vnat 42)))) ∧
    ((run_flow 1 valFlow none [] ReturnType.result (initWorld idOrch)).2.1.flow_run.map fun fr => fr.state) = some Completed :=
  run_flow_returns_result_and_completes idOrch valFlow [] [] (Val.vnat 42) none 0
    (fun _ _ => rfl) rfl rfl rfl

/-- C4: for every work callable that raises on the run's invocation (with
a collaborator that accepts every proposal, in particular the proposed
FAILED state as terminal), the driver converts the error into a terminal
FAILED state: with the state return type the returned state is the FAILED
state carrying the error, the run record's durable state type is FAILED,
and with the result return type result resolution raises an error
wrapping the original exception instead of returning a value. -/
theorem run_flow_raised_error_becomes_failed
    (orch : Orchestrator) (flow : Flow) (params params' : Params) (exc : PyExc)
    (nm : Option String) (fuel : Nat)
    (horch : ∀ i s, orch.accept i s = s)
    (hval : (if flow.should_validate_parameters then flow.validate_parameters params else Except.ok params) = Except.ok params')
    (hname : flow.run_name_outcome params = Except.ok nm)
    (hfn : flow.fn 0 params' = Except.error exc) :
    (run_flow (fuel + 1) flow none params ReturnType.state (initWorld orch)).1 =
      Except.ok (some (RunOutcome.state (exception_to_failed_state exc))) ∧
    ((run_flow (fuel + 1) flow none params ReturnType.state (initWorld orch)).2.1.flow_run.map fun fr => fr.state.type) = some StateType.FAILED ∧
    (run_flow (fuel + 1) flow none params ReturnType.result (initWorld orch)).1 =
      Except.error (PyExc.wrapped exc) := by
  cases hsv : flow.should_validate_parameters with
  | true =>
    simp [hsv] at hval
    refine ⟨?_, ?_, ?_⟩ <;>
      simp [run_flow, FlowRunEngine.start, startExitAsync, FlowRunEngine.startInner,
        FlowRunEngine.create_flow_run, FlowRunEngine.create_subflow_task_run, runBody,
        FlowRunEngine.begin_run, FlowRunEngine.set_state, FlowRunEngine.client,
        FlowRunEngine.state, FlowRunEngine.result, State.resultOf, exception_to_failed_state,
        propose_state, proposeCalls, countEv, isProposeEvent,
        pendingLoop, runningLoop, pendingLoop_not_pending, runningLoop_not_running,
        FlowRunEngine.handle_success, FlowRunEngine.handle_exception,
        FlowRunEngine.is_pending, FlowRunEngine.is_running, State.is_pending, State.is_running,
        Running, Completed, Pending, initWorld, hsv, hval, hname, hfn, horch]
  | false =>
    simp [hsv] at hval
    subst hval
    refine ⟨?_, ?_, ?_⟩ <;>
      simp [run_flow, FlowRunEngine.start, startExitAsync, FlowRunEngine.startInner,
        FlowRunEngine.create_flow_run, FlowRunEngine.create_subflow_task_run, runBody,
        FlowRunEngine.begin_run, FlowRunEngine.set_state, FlowRunEngine.client,
        FlowRunEngine.state, FlowRunEngine.result, State.resultOf, exception_to_failed_state,
        propose_state, proposeCalls, countEv, isProposeEvent,
        pendingLoop, runningLoop, pendingLoop_not_pending, runningLoop_not_running,
        FlowRunEngine.handle_success, FlowRunEngine.handle_exception,
        FlowRunEngine.is_pending, FlowRunEngine.is_running, State.is_pending, State.is_running,
        Running, Completed, Pending, initWorld, hsv, hname, hfn, horch]

/-- Witness for C4 at a concrete input. -/
theorem run_flow_raised_error_becomes_failed_witness :
    (run_flow 1 raisingFlow none [] ReturnType.state (initWorld idOrch)).1 =
      Except.ok (some (RunOutcome.state (exception_to_failed_state (PyExc.userExc 9)))) ∧
    ((run_flow 1 raisingFlow none [] ReturnType.state (initWorld idOrch)).2.1.flow_run.map fun fr => fr.state.type) = some StateType.FAILED ∧
    (run_flow 1 raisingFlow none [] ReturnType.result (initWorld idOrch)).1 =
      Except.error (PyExc.wrapped (PyExc.userExc 9)) :=
  run_flow_raised_error_becomes_failed idOrch raisingFlow [] [] (PyExc.userExc 9) none 0
    (fun _ _ => rfl) rfl rfl rfl

/-- C2: for every work definition with parameter validation enabled and
every parameter set that fails validation (with any collaborator that
accepts a proposed FAILED state as FAILED-typed), the driven run does not
raise the validation error to the caller: the run is transitioned to
FAILED through exactly one proposal — the FAILED state produced by
`handle_exception` — the short-circuit flag ends set, and the work's
callable is never invoked (the final interaction log shows no further
collaborator call at all). -/
theorem validation_failure_short_circuits
    (orch : Orchestrator) (flow : Flow) (params : Params) (vexc : PyExc)
    (nm : Option String) (fuel : Nat)
    (hv : flow.should_validate_parameters = true)
    (hval : flow.validate_parameters params = Except.error vexc)
    (hname : flow.run_name_outcome params = Except.ok nm)
    (horch : ∀ i s, s.type = StateType.FAILED → (orch.accept i s).type = StateType.FAILED) :
    (run_flow fuel flow none params ReturnType.state (initWorld orch)).1 =
      Except.ok (some (RunOutcome.state (orch.accept 0 (exception_to_failed_state vexc)))) ∧
    (run_flow fuel flow none params ReturnType.state (initWorld orch)).2.1.short_circuit = true ∧
    (run_flow fuel flow none params ReturnType.state (initWorld orch)).2.2.fnCalls = 0 ∧
    (run_flow fuel flow none params ReturnType.state (initWorld orch)).2.2.log =
      [OrchEvent.clientOpen, OrchEvent.createFlowRun 0 none,
       OrchEvent.proposeState 0 (exception_to_failed_state vexc) (orch.accept 0 (exception_to_failed_state vexc)),
       OrchEvent.ctxEnter, OrchEvent.ctxExit, OrchEvent.clientClose] ∧
    (orch.accept 0 (exception_to_failed_state vexc)).type = StateType.FAILED := by
  have hacc : (orch.accept 0 (exception_to_failed_state vexc)).type = StateType.FAILED :=
    horch 0 _ rfl
  refine ⟨?_, ?_, ?_, ?_, hacc⟩ <;>
    simp [run_flow, FlowRunEngine.start, startExitAsync, FlowRunEngine.startInner,
      FlowRunEngine.create_flow_run, FlowRunEngine.create_subflow_task_run, runBody,
      FlowRunEngine.begin_run, FlowRunEngine.set_state, FlowRunEngine.client,
      FlowRunEngine.state, propose_state, proposeCalls, countEv, isProposeEvent,
      pendingLoop, runningLoop, pendingLoop_not_pending, runningLoop_not_running,
      FlowRunEngine.handle_success, FlowRunEngine.handle_exception,
      FlowRunEngine.is_pending, FlowRunEngine.is_running, State.is_pending, State.is_running,
      Running, Completed, Pending, initWorld, hv, hval, hname, hacc]

/-- Witness for C2 at the spec's own example input: the work requires an
integer x and the call supplies the string not-an-int; the run ends in
the FAILED state, short-circuited, with the callable never invoked. -/
theorem validation_failure_short_circuits_witness :
    (run_flow 3 intOnlyFlow none [("x", Val.vstr "not-an-int")] ReturnType.state (initWorld idOrch)).1 =
      Except.ok (some (RunOutcome.state (exception_to_failed_state (PyExc.validationErr 1)))) ∧
    (run_flow 3 intOnlyFlow none [("x", Val.vstr "not-an-int")] ReturnType.state (initWorld idOrch)).2.1.short_circuit = true ∧
    (run_flow 3 intOnlyFlow none [("x", Val.vstr "not-an-int")] ReturnType.state (initWorld idOrch)).2.2.fnCalls = 0 := by
  have h := validation_failure_short_circuits idOrch intOnlyFlow
    [("x", Val.vstr "not-an-int")] (PyExc.validationErr 1) none 3 rfl rfl rfl
    (fun _ _ hs => hs)
  exact ⟨h.1, h.2.1, h.2.2.1⟩

end Prefect
